import Mathlib

/-
Verification of the MindtPy initialization module
(pyomo/contrib/mindtpy/initialization.py).

The module is embedded shallowly: the external solver is a black box
(spec section 2), so each initialization routine takes the solver outcome
(`SolveResults`), the primal values of the solved clone and its dual values
as inputs, and returns the updated run state, or an error string where the
Python code raises `ValueError`.  Numeric values are rationals; a missing /
NaN bound is `Option.none`.  Logging (`config.logger.info`) is modelled as
appending the literal message to a log list in the state.
-/

namespace MindtPy

/-- Objective sense (`pyomo.core.minimize` / `maximize`). -/
inductive Sense
  | minimize
  | maximize
deriving DecidableEq, Repr

/-- Solver termination conditions (`pyomo.opt.TerminationCondition`), restricted
to the members this module inspects plus representatives of the rest. -/
inductive TermCond
  | optimal
  | locallyOptimal
  | feasible
  | infeasible
  | noSolution
  | maxTimeLimit
  | maxIterations
  | unbounded
  | solverError
  | other
deriving DecidableEq, Repr

/-- Rendering of a termination condition, as Python's `'%s' % cond` would. -/
def TermCond.toStr : TermCond → String
  | .optimal => "optimal"
  | .locallyOptimal => "locallyOptimal"
  | .feasible => "feasible"
  | .infeasible => "infeasible"
  | .noSolution => "noSolution"
  | .maxTimeLimit => "maxTimeLimit"
  | .maxIterations => "maxIterations"
  | .unbounded => "unbounded"
  | .solverError => "error"
  | .other => "other"

/-- Solver-level part of a solve result (`results.solver`). -/
structure SolverInfo where
  termination_condition : TermCond
  message : String
deriving DecidableEq, Repr

/-- Problem-level part of a solve result (`results.problem`); `none` models a
NaN / absent bound (`math.isnan` guard in the source). -/
structure ProblemInfo where
  lower_bound : Option ℚ
  upper_bound : Option ℚ
deriving DecidableEq, Repr

/-- A normalized subproblem outcome (spec section 3, "Subproblem Outcome"). -/
structure SolveResults where
  solver : SolverInfo
  problem : ProblemInfo
deriving DecidableEq, Repr

/-- One decision variable: its current value and the predicates the module
reads (`discrete_variable_list` membership, `is_binary()`, `fixed`). -/
structure VarData where
  value : ℚ
  discrete : Bool
  binary : Bool
  fixed : Bool
deriving DecidableEq, Repr

/-- A cut appended to one of the master model's pools, tagged with the data it
was generated from. -/
inductive Cut
  | oa (point : List ℚ) (duals : Option (List ℚ))
  | affine (point : List ℚ)
deriving DecidableEq, Repr

/-- The working model: variable values plus the optional feasibility-pump
orthogonality-cut list (`None` = constraint list not created). -/
structure WorkingModel where
  variable_list : List VarData
  fp_orthogonality_cuts : Option (List Cut)
deriving DecidableEq, Repr

/-- The master (MIP) model: variable values, objective activity, and the four
cut pools; `none` means the corresponding `ConstraintList` was never created. -/
structure MipModel where
  variable_list : List VarData
  objective_active : Bool
  oa_cuts : Option (List Cut)
  ecp_cuts : Option (List Cut)
  aff_cuts : Option (List Cut)
  fp_orthogonality_cuts : Option (List Cut)
deriving DecidableEq, Repr

/-- The mutable run state (`solve_data`), restricted to the fields this module
reads or writes. -/
structure SolveData where
  working_model : WorkingModel
  mip : MipModel
  objective_sense : Sense
  LB : ℚ
  UB : ℚ
  LB_progress : List ℚ
  UB_progress : List ℚ
  results_termination : Option TermCond
  jacobians_calculated : Nat
  mip_subiter : Nat
  log : List String
deriving DecidableEq, Repr

/-- Run configuration fields consumed by this module. -/
structure Config where
  strategy : String
  init_strategy : Option String
  calculate_dual : Bool
  single_tree : Bool
  fp_projcuts : Bool
  time_limit : ℚ
  nlp_solver : String
  mip_solver : String
deriving DecidableEq, Repr

/-- Append an informational message (`config.logger.info`). -/
def logmsg (sd : SolveData) (s : String) : SolveData :=
  { sd with log := sd.log ++ [s] }

/-- Forget the log channel (logging is a side channel, spec section 6). -/
def clearLog (sd : SolveData) : SolveData :=
  { sd with log := [] }

/-- Python 3 `round`: round half to even, as used in `int(round(var.value))`
at initialization.py:178. -/
def pyRound (q : ℚ) : ℤ :=
  if q - ⌊q⌋ < 1 / 2 then ⌊q⌋
  else if q - ⌊q⌋ > 1 / 2 then ⌊q⌋ + 1
  else if ⌊q⌋ % 2 = 0 then ⌊q⌋ else ⌊q⌋ + 1

/-- Python `int()` on a float-like value: truncation toward zero, as used in
`int(max(config.time_limit - elapsed, 1))`. -/
def pyInt (q : ℚ) : ℤ :=
  if 0 ≤ q then ⌊q⌋ else -⌊-q⌋

/-- Modelled from the spec: `copy_var_list_values` lives in
`pyomo.contrib.gdpopt.util`, which is not under src/.  Per the spec it copies
every decision-variable's value from the source list into the target list
(with `ignore_integrality` the values are taken verbatim). -/
def copy_var_list_values (source : List ℚ) (target : List VarData) : List VarData :=
  List.zipWith (fun v q => { v with value := q }) target source

/-- Rounding of every discrete variable's copied value
(initialization.py:177-178: `var.value = int(round(var.value))`). -/
def round_discrete_vars (vars : List VarData) : List VarData :=
  vars.map fun v => if v.discrete then { v with value := (pyRound v.value : ℚ) } else v

/-- Modelled from the spec: `add_oa_cuts` lives in
`pyomo.contrib.mindtpy.cut_generation`, which is not under src/.  Per the spec
it generates an outer-approximation cut from the point and the dual/Jacobian
information and appends it to the outer-approximation pool. -/
def add_oa_cuts (point : List ℚ) (duals : Option (List ℚ)) (m : MipModel) : MipModel :=
  { m with oa_cuts := some (m.oa_cuts.getD [] ++ [Cut.oa point duals]) }

/-- Modelled from the spec: `add_affine_cuts` lives in
`pyomo.contrib.mindtpy.cut_generation`, which is not under src/.  Per the spec
it generates an affine cut at the current point and appends it to the
affine-cut pool. -/
def add_affine_cuts (point : List ℚ) (m : MipModel) : MipModel :=
  { m with aff_cuts := some (m.aff_cuts.getD [] ++ [Cut.affine point]) }

/-- Bound extraction on an accepted relaxed-NLP outcome
(initialization.py:153-159): under minimize only the lower bound (when not
NaN) is stored and pushed; the `elif` on the upper bound is reached only when
the sense is not minimize. -/
def update_bounds (prob : ProblemInfo) (sd : SolveData) : SolveData :=
  match sd.objective_sense with
  | .minimize =>
    match prob.lower_bound with
    | some lb => { sd with LB := lb, LB_progress := sd.LB_progress ++ [lb] }
    | none => sd
  | .maximize =>
    match prob.upper_bound with
    | some ub => { sd with UB := ub, UB_progress := sd.UB_progress ++ [ub] }
    | none => sd

/-- Solver arguments assembled before a subproblem call: `remaining` is the
locally computed time budget, `reslim` is the budget actually attached to the
call (as a GAMS `reslim` option), `optcr` whether a GAMS `optcr` option was
attached. -/
structure SolverArgs where
  remaining : ℤ
  reslim : Option ℤ
  optcr : Bool
deriving DecidableEq, Repr

/-- The remaining-time computation shared by both initialization routines
(initialization.py:136 and 238): `int(max(config.time_limit - elapsed, 1))`. -/
def remaining_time (config : Config) (elapsed : ℚ) : ℤ :=
  pyInt (max (config.time_limit - elapsed) 1)

/-- Arguments of the relaxed-NLP solver call (initialization.py:134-139): the
computed budget is attached (as `option reslim`) only when the NLP solver is
gams. -/
def rNLP_nlp_args (config : Config) (elapsed : ℚ) : SolverArgs :=
  let remaining := remaining_time config elapsed
  if config.nlp_solver = "gams" then
    { remaining := remaining, reslim := some remaining, optcr := false }
  else
    { remaining := remaining, reslim := none, optcr := false }

/-- Arguments of the maximize-binaries MILP call (initialization.py:236-242):
`remaining` is computed at line 238 but never attached to the call; the gams
branch appends only `option optcr=0.001;`. -/
def max_binaries_mip_args (config : Config) (elapsed : ℚ) : SolverArgs :=
  let remaining := remaining_time config elapsed
  if config.mip_solver = "gams" then
    { remaining := remaining, reslim := none, optcr := true }
  else
    { remaining := remaining, reslim := none, optcr := false }

/-- Handling of an accepted relaxed-NLP outcome (initialization.py:144-178),
after the caveat log line for a non-optimal accepted status. -/
def handle_accepted_core (config : Config) (sd : SolveData) (results : SolveResults)
    (relaxed_values : List ℚ) (duals : List ℚ) : SolveData :=
  let dual_values : Option (List ℚ) :=
    if config.calculate_dual then some duals else none
  let sd := update_bounds results.problem sd
  let sd := logmsg sd "Relaxed NLP: OBJ  LB  UB"
  if config.strategy = "OA" ∨ config.strategy = "GOA" ∨ config.strategy = "feas_pump" then
    let sd := { sd with mip := { sd.mip with
      variable_list := copy_var_list_values relaxed_values sd.mip.variable_list } }
    let sd :=
      if config.init_strategy = some "feas_pump" then
        { sd with working_model := { sd.working_model with
          variable_list := copy_var_list_values relaxed_values sd.working_model.variable_list } }
      else sd
    let sd :=
      if config.strategy = "OA" then
        { sd with mip := add_oa_cuts relaxed_values dual_values sd.mip }
      else if config.strategy = "GOA" then
        { sd with mip := add_affine_cuts relaxed_values sd.mip }
      else sd
    { sd with mip := { sd.mip with
      variable_list := round_discrete_vars sd.mip.variable_list } }
  else sd

/-- Accepted-branch entry (initialization.py:144-147): a feasible or
locally-optimal status logs a caveat, then is handled identically to optimal. -/
def handle_accepted (config : Config) (sd : SolveData) (results : SolveResults)
    (relaxed_values : List ℚ) (duals : List ℚ) : SolveData :=
  let cond := results.solver.termination_condition
  let sd :=
    if cond = .feasible ∨ cond = .locallyOptimal then
      logmsg sd "relaxed NLP is not solved to optimality."
    else sd
  handle_accepted_core config sd results relaxed_values duals

/-- Message of the `ValueError` raised on an unrecognized relaxed-NLP status
(initialization.py:192-195). -/
def rNLP_err_msg (cond : TermCond) (msg : String) : String :=
  "MindtPy unable to handle relaxed NLP termination condition of " ++
    cond.toStr ++ ". Solver message: " ++ msg

/-- Embedding of `init_rNLP` (initialization.py:117-195).  The clone, integrality
relaxation and solver call are external; the outcome of the solve on the
clone arrives as `results` with the clone's primal values `relaxed_values`
and dual values `duals`.  Raising `ValueError` is `Except.error`. -/
def init_rNLP (config : Config) (solve_data : SolveData) (elapsed : ℚ)
    (results : SolveResults) (relaxed_values : List ℚ) (duals : List ℚ) :
    Except String SolveData :=
  let sd := logmsg solve_data "Relaxed NLP: Solve relaxed integrality"
  let _args := rNLP_nlp_args config elapsed
  let cond := results.solver.termination_condition
  if cond = .optimal ∨ cond = .feasible ∨ cond = .locallyOptimal then
    .ok (handle_accepted config sd results relaxed_values duals)
  else if cond = .infeasible ∨ cond = .noSolution then
    .ok (logmsg sd "Initial relaxed NLP problem is infeasible. Problem may be infeasible.")
  else if cond = .maxTimeLimit then
    .ok { logmsg sd "NLP subproblem failed to converge within time limit." with
          results_termination := some .maxTimeLimit }
  else if cond = .maxIterations then
    .ok (logmsg sd "NLP subproblem failed to converge within iteration limit.")
  else
    .error (rNLP_err_msg cond results.solver.message)

/-- Message of the `ValueError` raised on an unrecognized maximize-binaries
status (initialization.py:265-268). -/
def maxbin_err_msg (cond : TermCond) (msg : String) : String :=
  "MindtPy unable to handle MILP master termination condition of " ++
    cond.toStr ++ ". Solver message: " ++ msg

/-- Message of the `ValueError` raised when the synthetic maximize-binaries
problem is infeasible (initialization.py:253-256). -/
def maxbin_infeasible_msg : String :=
  "MILP master problem is infeasible. Problem may have no more feasible binary configurations."

/-- Embedding of `init_max_binaries` (initialization.py:198-268).  The clone, constraint
deactivation, synthetic objective and solver call are external; the MILP
outcome arrives as `results` with the clone's primal values `mip_values`. -/
def init_max_binaries (config : Config) (solve_data : SolveData) (elapsed : ℚ)
    (results : SolveResults) (mip_values : List ℚ) :
    Except String SolveData :=
  let sd := { solve_data with mip_subiter := solve_data.mip_subiter + 1 }
  let sd := logmsg sd "MILP: maximize value of binaries"
  let _args := max_binaries_mip_args config elapsed
  let cond := results.solver.termination_condition
  if cond = .optimal then
    .ok { sd with working_model := { sd.working_model with
      variable_list := copy_var_list_values mip_values sd.working_model.variable_list } }
  else if cond = .infeasible then
    .error maxbin_infeasible_msg
  else if cond = .maxTimeLimit then
    .ok { logmsg sd "NLP subproblem failed to converge within time limit." with
          results_termination := some .maxTimeLimit }
  else if cond = .maxIterations then
    .ok (logmsg sd "NLP subproblem failed to converge within iteration limit.")
  else
    .error (maxbin_err_msg cond results.solver.message)

/-- Cloning of the working model into the master model
(initialization.py:52-54): values and existing components are copied, the
objective is then deactivated, no cut pools exist yet beyond what the working
model carries. -/
def clone_to_mip (w : WorkingModel) : MipModel :=
  { variable_list := w.variable_list
    objective_active := false
    oa_cuts := none
    ecp_cuts := none
    aff_cuts := none
    fp_orthogonality_cuts := w.fp_orthogonality_cuts }

/-- The master-setup phase of `MindtPy_initialize_master`
(initialization.py:49-95): clone and objective deactivation, cut-pool
creation, Jacobian pre-computation (modelled as a counter; `calc_jacobians`
itself is external), and default-initialization-strategy resolution.  The
strategy dispatch (lines 96-114) then consumes the returned configuration. -/
def MindtPy_initialize_master_setup (config : Config) (solve_data : SolveData) :
    Config × SolveData :=
  let sd := { solve_data with mip := clone_to_mip solve_data.working_model }
  let sd :=
    if config.init_strategy = some "feas_pump" then
      let sd := { sd with mip := { sd.mip with fp_orthogonality_cuts := some [] } }
      if config.fp_projcuts then
        { sd with working_model := { sd.working_model with fp_orthogonality_cuts := some [] } }
      else sd
    else sd
  let sd :=
    if config.strategy = "OA" ∨ config.init_strategy = some "feas_pump" then
      { sd with jacobians_calculated := sd.jacobians_calculated + 1
                mip := { sd.mip with oa_cuts := some [] } }
    else if config.strategy = "ECP" then
      { sd with jacobians_calculated := sd.jacobians_calculated + 1
                mip := { sd.mip with ecp_cuts := some [] } }
    else if config.strategy = "GOA" then
      { sd with mip := { sd.mip with aff_cuts := some [] } }
    else sd
  let config :=
    if config.init_strategy = none then
      if config.strategy = "OA" ∨ config.strategy = "GOA" then
        { config with init_strategy := some "rNLP" }
      else
        { config with init_strategy := some "max_binary" }
    else config
  (config, sd)

/-- The termination conditions this module recognizes (spec section 7 rows
other than "other / unrecognized"). -/
def recognized_conds : List TermCond :=
  [.optimal, .locallyOptimal, .feasible, .infeasible, .noSolution,
   .maxTimeLimit, .maxIterations]

/-- Projection of a non-raising outcome. -/
def okState : Except String SolveData → Option SolveData
  | .ok sd => some sd
  | .error _ => none

/-- Values of the master model's variables after a non-raising outcome. -/
def mip_values (e : Except String SolveData) : Option (List ℚ) :=
  (okState e).map fun sd => sd.mip.variable_list.map VarData.value

/-- A continuous sample variable at value 0. -/
def varCont : VarData :=
  { value := 0, discrete := false, binary := false, fixed := false }

/-- A sample working model with a single continuous variable. -/
def wm0 : WorkingModel :=
  { variable_list := [varCont], fp_orthogonality_cuts := none }

/-- A sample run state before initialization. -/
def sd0 : SolveData :=
  { working_model := wm0
    mip := clone_to_mip wm0
    objective_sense := .minimize
    LB := -100
    UB := 100
    LB_progress := [-100]
    UB_progress := [100]
    results_termination := none
    jacobians_calculated := 0
    mip_subiter := 0
    log := [] }

/-- A sample optimal outcome carrying both numeric bounds. -/
def resOpt : SolveResults :=
  { solver := { termination_condition := .optimal, message := "ok" }
    problem := { lower_bound := some 10, upper_bound := some 20 } }

/-- A sample feasible (non-optimal) outcome. -/
def resFeasible : SolveResults :=
  { solver := { termination_condition := .feasible, message := "ok" }
    problem := { lower_bound := some 10, upper_bound := some 20 } }

/-- A sample infeasible outcome. -/
def resInfeasible : SolveResults :=
  { solver := { termination_condition := .infeasible, message := "inf" }
    problem := { lower_bound := none, upper_bound := none } }

/-- A sample unrecognized outcome. -/
def resUnbounded : SolveResults :=
  { solver := { termination_condition := .unbounded, message := "ray found" }
    problem := { lower_bound := none, upper_bound := none } }

/-- A sample OA configuration with dual collection on. -/
def cfgOA : Config :=
  { strategy := "OA", init_strategy := some "rNLP", calculate_dual := true,
    single_tree := false, fp_projcuts := false, time_limit := 10,
    nlp_solver := "ipopt", mip_solver := "cplex" }

/-- A sample ECP configuration with dual collection on (for C1). -/
def cfgECPdual : Config :=
  { strategy := "ECP", init_strategy := some "rNLP", calculate_dual := true,
    single_tree := false, fp_projcuts := false, time_limit := 10,
    nlp_solver := "ipopt", mip_solver := "cplex" }

/-- A GOA configuration whose initialization strategy is the feasibility pump
(for C6). -/
def cfgGOAfp : Config :=
  { strategy := "GOA", init_strategy := some "feas_pump", calculate_dual := false,
    single_tree := false, fp_projcuts := false, time_limit := 10,
    nlp_solver := "ipopt", mip_solver := "cplex" }

/-- A configuration with no initialization strategy set (for C7). -/
def cfgECPnone : Config :=
  { strategy := "ECP", init_strategy := none, calculate_dual := false,
    single_tree := false, fp_projcuts := false, time_limit := 10,
    nlp_solver := "ipopt", mip_solver := "cplex" }

/-- A configuration using the gams solver for both subproblem kinds
(for C3). -/
def cfgGams : Config :=
  { strategy := "OA", init_strategy := some "rNLP", calculate_dual := false,
    single_tree := false, fp_projcuts := false, time_limit := 10,
    nlp_solver := "gams", mip_solver := "gams" }

/-- The concrete outcome of a relaxed-NLP initialization with strategy OA on
the sample state, optimal status, and no variables copied. -/
def rOpt0 : Except String SolveData := init_rNLP cfgOA sd0 0 resOpt [] []

/-- The state carried by `rOpt0`. -/
def sdOpt0 : SolveData := (okState rOpt0).getD sd0

/-- The concrete outcome of a relaxed-NLP initialization with strategy OA on
the sample state, optimal status, relaxed value 7 and dual value 3. -/
def rOA7 : Except String SolveData := init_rNLP cfgOA sd0 0 resOpt [7] [3]

/-- The state carried by `rOA7`. -/
def sdOA7 : SolveData := (okState rOA7).getD sd0

section FrameLemmas

variable (p : ProblemInfo) (s : SolveData) (m : String)

@[simp] theorem logmsg_working_model : (logmsg s m).working_model = s.working_model := rfl

@[simp] theorem logmsg_mip : (logmsg s m).mip = s.mip := rfl

@[simp] theorem logmsg_LB : (logmsg s m).LB = s.LB := rfl

@[simp] theorem logmsg_UB : (logmsg s m).UB = s.UB := rfl

@[simp] theorem logmsg_LB_progress : (logmsg s m).LB_progress = s.LB_progress := rfl

@[simp] theorem logmsg_UB_progress : (logmsg s m).UB_progress = s.UB_progress := rfl

@[simp] theorem logmsg_objective_sense : (logmsg s m).objective_sense = s.objective_sense := rfl

@[simp] theorem logmsg_results_termination :
    (logmsg s m).results_termination = s.results_termination := rfl

@[simp] theorem logmsg_log : (logmsg s m).log = s.log ++ [m] := rfl

@[simp] theorem update_bounds_working_model :
    (update_bounds p s).working_model = s.working_model := by
  unfold update_bounds
  cases s.objective_sense <;> cases p.lower_bound <;> cases p.upper_bound <;> rfl

@[simp] theorem update_bounds_mip : (update_bounds p s).mip = s.mip := by
  unfold update_bounds
  cases s.objective_sense <;> cases p.lower_bound <;> cases p.upper_bound <;> rfl

@[simp] theorem update_bounds_log : (update_bounds p s).log = s.log := by
  unfold update_bounds
  cases s.objective_sense <;> cases p.lower_bound <;> cases p.upper_bound <;> rfl

@[simp] theorem update_bounds_results_termination :
    (update_bounds p s).results_termination = s.results_termination := by
  unfold update_bounds
  cases s.objective_sense <;> cases p.lower_bound <;> cases p.upper_bound <;> rfl

theorem update_bounds_minimize (hs : s.objective_sense = .minimize) :
    ((update_bounds p s).UB = s.UB ∧ (update_bounds p s).UB_progress = s.UB_progress) ∧
    (∀ lb, p.lower_bound = some lb →
      (update_bounds p s).LB = lb ∧
      (update_bounds p s).LB_progress = s.LB_progress ++ [lb]) ∧
    (p.lower_bound = none →
      (update_bounds p s).LB = s.LB ∧
      (update_bounds p s).LB_progress = s.LB_progress) := by
  unfold update_bounds
  rw [hs]
  cases hb : p.lower_bound <;> simp [hb]

theorem update_bounds_maximize (hs : s.objective_sense = .maximize) :
    ((update_bounds p s).LB = s.LB ∧ (update_bounds p s).LB_progress = s.LB_progress) ∧
    (∀ ub, p.upper_bound = some ub →
      (update_bounds p s).UB = ub ∧
      (update_bounds p s).UB_progress = s.UB_progress ++ [ub]) ∧
    (p.upper_bound = none →
      (update_bounds p s).UB = s.UB ∧
      (update_bounds p s).UB_progress = s.UB_progress) := by
  unfold update_bounds
  rw [hs]
  cases hb : p.upper_bound <;> simp [hb]

end FrameLemmas

/-- C7: when no initialization strategy is configured, the driver resolves the
default to rNLP exactly for the OA and GOA decomposition strategies and to
max_binary for every other strategy; an explicitly configured initialization
strategy (and the rest of the configuration) is left untouched
(initialization.py:86-90). -/
theorem C7_default_init_strategy (config : Config) (sd : SolveData) :
    (config.init_strategy = none →
      ((config.strategy = "OA" ∨ config.strategy = "GOA") →
        (MindtPy_initialize_master_setup config sd).1.init_strategy = some "rNLP") ∧
      (¬(config.strategy = "OA" ∨ config.strategy = "GOA") →
        (MindtPy_initialize_master_setup config sd).1.init_strategy = some "max_binary")) ∧
    (config.init_strategy ≠ none →
      (MindtPy_initialize_master_setup config sd).1 = config) := by
  unfold MindtPy_initialize_master_setup
  refine ⟨fun h => ⟨fun hs => ?_, fun hs => ?_⟩, fun h => ?_⟩
  · simp [h, hs]
  · simp [h, hs]
  · simp [h]

/-- C7 witness: with strategy ECP and no configured initialization strategy,
the resolved default is max_binary. -/
theorem C7_default_init_strategy_witness :
    cfgECPnone.init_strategy = none ∧
    ¬(cfgECPnone.strategy = "OA" ∨ cfgECPnone.strategy = "GOA") ∧
    (MindtPy_initialize_master_setup cfgECPnone sd0).1.init_strategy = some "max_binary" :=
  ⟨rfl, by decide,
   ((C7_default_init_strategy cfgECPnone sd0).1 rfl).2 (by decide)⟩

/-- C6 counterexample: with decomposition strategy GOA but initialization
strategy feas_pump, the affine-cut pool is NOT created; instead the
outer-approximation pool is created and Jacobians ARE computed
(initialization.py:66-76 tests `config.strategy == 'OA' or
config.init_strategy == 'feas_pump'` first, skipping the GOA branch), so the
pools pre-created are not exactly those of the decomposition strategy. -/
theorem C6_counterexample :
    (MindtPy_initialize_master_setup cfgGOAfp sd0).2.mip.aff_cuts = none ∧
    (MindtPy_initialize_master_setup cfgGOAfp sd0).2.mip.oa_cuts = some [] ∧
    (MindtPy_initialize_master_setup cfgGOAfp sd0).2.jacobians_calculated = 1 := by
  refine ⟨rfl, rfl, rfl⟩

/-- C6 (amended): when the initialization strategy is not feas_pump, the
pre-created pools and the Jacobian request are exactly those of the
decomposition strategy (OA: outer-approximation pool plus one Jacobian
computation; ECP: extended-cutting-plane pool plus one Jacobian computation;
GOA: affine pool and no Jacobian computation); when the initialization
strategy is feas_pump, the orthogonality pool and the outer-approximation
pool are created and Jacobians are computed once, regardless of the
decomposition strategy, and the ECP/GOA pools are not created. -/
theorem C6_amended_pools (config : Config) (sd : SolveData) :
    (config.init_strategy ≠ some "feas_pump" →
      (config.strategy = "OA" →
        (MindtPy_initialize_master_setup config sd).2.mip.oa_cuts = some [] ∧
        (MindtPy_initialize_master_setup config sd).2.mip.ecp_cuts = none ∧
        (MindtPy_initialize_master_setup config sd).2.mip.aff_cuts = none ∧
        (MindtPy_initialize_master_setup config sd).2.jacobians_calculated
          = sd.jacobians_calculated + 1) ∧
      (config.strategy = "ECP" →
        (MindtPy_initialize_master_setup config sd).2.mip.ecp_cuts = some [] ∧
        (MindtPy_initialize_master_setup config sd).2.mip.oa_cuts = none ∧
        (MindtPy_initialize_master_setup config sd).2.mip.aff_cuts = none ∧
        (MindtPy_initialize_master_setup config sd).2.jacobians_calculated
          = sd.jacobians_calculated + 1) ∧
      (config.strategy = "GOA" →
        (MindtPy_initialize_master_setup config sd).2.mip.aff_cuts = some [] ∧
        (MindtPy_initialize_master_setup config sd).2.mip.oa_cuts = none ∧
        (MindtPy_initialize_master_setup config sd).2.mip.ecp_cuts = none ∧
        (MindtPy_initialize_master_setup config sd).2.jacobians_calculated
          = sd.jacobians_calculated)) ∧
    (config.init_strategy = some "feas_pump" →
      (MindtPy_initialize_master_setup config sd).2.mip.fp_orthogonality_cuts = some [] ∧
      (MindtPy_initialize_master_setup config sd).2.mip.oa_cuts = some [] ∧
      (MindtPy_initialize_master_setup config sd).2.mip.ecp_cuts = none ∧
      (MindtPy_initialize_master_setup config sd).2.mip.aff_cuts = none ∧
      (MindtPy_initialize_master_setup config sd).2.jacobians_calculated
        = sd.jacobians_calculated + 1) := by
  unfold MindtPy_initialize_master_setup clone_to_mip
  constructor
  · intro hfp
    refine ⟨fun hs => ?_, fun hs => ?_, fun hs => ?_⟩ <;>
      simp [hfp, hs]
  · intro hfp
    by_cases hproj : config.fp_projcuts <;> simp [hfp, hproj]

/-- C6 witness: with strategy OA and initialization strategy rNLP, exactly the
outer-approximation pool is created and one Jacobian computation is
requested. -/
theorem C6_amended_pools_witness :
    cfgOA.init_strategy ≠ some "feas_pump" ∧
    cfgOA.strategy = "OA" ∧
    (MindtPy_initialize_master_setup cfgOA sd0).2.mip.oa_cuts = some [] ∧
    (MindtPy_initialize_master_setup cfgOA sd0).2.mip.ecp_cuts = none ∧
    (MindtPy_initialize_master_setup cfgOA sd0).2.mip.aff_cuts = none ∧
    (MindtPy_initialize_master_setup cfgOA sd0).2.jacobians_calculated
      = sd0.jacobians_calculated + 1 := by
  refine ⟨by decide, rfl, ?_⟩
  have h := ((C6_amended_pools cfgOA sd0).1 (by decide)).1 rfl
  exact ⟨h.1, h.2.1, h.2.2.1, h.2.2.2⟩

/-- C4: in the maximize-binaries strategy an infeasible outcome raises the
fatal no-more-binary-configurations error, a time-limit outcome is non-fatal
(logged, and the run-level termination condition is set to time-limit), and
an iteration-limit outcome is non-fatal (logged only), leaving every other
state field unchanged apart from the sub-iteration counter incremented on
entry (initialization.py:244-263). -/
theorem C4_max_binaries_outcome_policy (config : Config) (sd : SolveData) (elapsed : ℚ)
    (results : SolveResults) (mv : List ℚ) :
    (results.solver.termination_condition = .infeasible →
      init_max_binaries config sd elapsed results mv = .error maxbin_infeasible_msg) ∧
    (results.solver.termination_condition = .maxTimeLimit →
      init_max_binaries config sd elapsed results mv =
        .ok { sd with
              mip_subiter := sd.mip_subiter + 1
              results_termination := some .maxTimeLimit
              log := sd.log ++ ["MILP: maximize value of binaries",
                                "NLP subproblem failed to converge within time limit."] }) ∧
    (results.solver.termination_condition = .maxIterations →
      init_max_binaries config sd elapsed results mv =
        .ok { sd with
              mip_subiter := sd.mip_subiter + 1
              log := sd.log ++ ["MILP: maximize value of binaries",
                                "NLP subproblem failed to converge within iteration limit."] }) := by
  refine ⟨fun h => ?_, fun h => ?_, fun h => ?_⟩ <;>
    simp [init_max_binaries, logmsg, h]

/-- C4 witness: a concrete infeasible maximize-binaries outcome raises. -/
theorem C4_max_binaries_outcome_policy_witness :
    resInfeasible.solver.termination_condition = TermCond.infeasible ∧
    init_max_binaries cfgECPnone sd0 0 resInfeasible [] = .error maxbin_infeasible_msg :=
  ⟨rfl, (C4_max_binaries_outcome_policy cfgECPnone sd0 0 resInfeasible []).1 rfl⟩

/-- C8: on any termination condition outside the recognized set, both
init_rNLP and init_max_binaries raise, and the raised message contains the
offending status and the solver's message
(initialization.py:191-195 and 264-268). -/
theorem C8_unrecognized_status_raises (config : Config) (sd : SolveData) (elapsed : ℚ)
    (results : SolveResults) (rv dv mv : List ℚ)
    (h : results.solver.termination_condition ∉ recognized_conds) :
    init_rNLP config sd elapsed results rv dv =
      .error (rNLP_err_msg results.solver.termination_condition results.solver.message) ∧
    init_max_binaries config sd elapsed results mv =
      .error (maxbin_err_msg results.solver.termination_condition results.solver.message) ∧
    (∃ p q, rNLP_err_msg results.solver.termination_condition results.solver.message =
      p ++ (results.solver.termination_condition).toStr ++ q) ∧
    (∃ p, rNLP_err_msg results.solver.termination_condition results.solver.message =
      p ++ results.solver.message) ∧
    (∃ p q, maxbin_err_msg results.solver.termination_condition results.solver.message =
      p ++ (results.solver.termination_condition).toStr ++ q) ∧
    (∃ p, maxbin_err_msg results.solver.termination_condition results.solver.message =
      p ++ results.solver.message) := by
  simp only [recognized_conds, List.mem_cons, List.not_mem_nil, or_false, not_or] at h
  obtain ⟨h1, h2, h3, h4, h5, h6, h7⟩ := h
  refine ⟨?_, ?_, ?_, ?_, ?_, ?_⟩
  · simp [init_rNLP, h1, h2, h3, h4, h5, h6, h7]
  · simp [init_max_binaries, h1, h2, h3, h4, h5, h6, h7]
  · exact ⟨"MindtPy unable to handle relaxed NLP termination condition of ",
      ". Solver message: " ++ results.solver.message,
      by unfold rNLP_err_msg; rw [String.append_assoc]⟩
  · exact ⟨"MindtPy unable to handle relaxed NLP termination condition of " ++
      (results.solver.termination_condition).toStr ++ ". Solver message: ", rfl⟩
  · exact ⟨"MindtPy unable to handle MILP master termination condition of ",
      ". Solver message: " ++ results.solver.message,
      by unfold maxbin_err_msg; rw [String.append_assoc]⟩
  · exact ⟨"MindtPy unable to handle MILP master termination condition of " ++
      (results.solver.termination_condition).toStr ++ ". Solver message: ", rfl⟩

/-- C8 witness: an unbounded outcome (outside the recognized set) makes both
routines raise with the status and the solver message embedded. -/
theorem C8_unrecognized_status_raises_witness :
    resUnbounded.solver.termination_condition ∉ recognized_conds ∧
    init_rNLP cfgOA sd0 0 resUnbounded [] [] =
      .error (rNLP_err_msg TermCond.unbounded "ray found") ∧
    init_max_binaries cfgOA sd0 0 resUnbounded [] =
      .error (maxbin_err_msg TermCond.unbounded "ray found") :=
  ⟨by decide,
   (C8_unrecognized_status_raises cfgOA sd0 0 resUnbounded [] [] [] (by decide)).1,
   (C8_unrecognized_status_raises cfgOA sd0 0 resUnbounded [] [] [] (by decide)).2.1⟩

/-- C9: an infeasible or no-solution relaxed-NLP outcome is non-fatal: the
likely-infeasible message is logged and every other state field (bounds,
bound histories, cut pools, model variable values, run termination condition)
is left unchanged (initialization.py:179-183). -/
theorem C9_rNLP_infeasible_nonfatal (config : Config) (sd : SolveData) (elapsed : ℚ)
    (results : SolveResults) (rv dv : List ℚ)
    (h : results.solver.termination_condition = .infeasible ∨
         results.solver.termination_condition = .noSolution) :
    init_rNLP config sd elapsed results rv dv =
      .ok { sd with log := sd.log ++
        ["Relaxed NLP: Solve relaxed integrality",
         "Initial relaxed NLP problem is infeasible. Problem may be infeasible."] } := by
  rcases h with h | h <;> simp [init_rNLP, logmsg, h]

/-- C9 witness: a concrete infeasible relaxed-NLP outcome only logs. -/
theorem C9_rNLP_infeasible_nonfatal_witness :
    (resInfeasible.solver.termination_condition = TermCond.infeasible ∨
     resInfeasible.solver.termination_condition = TermCond.noSolution) ∧
    init_rNLP cfgOA sd0 0 resInfeasible [] [] =
      .ok { sd0 with log := sd0.log ++
        ["Relaxed NLP: Solve relaxed integrality",
         "Initial relaxed NLP problem is infeasible. Problem may be infeasible."] } :=
  ⟨Or.inl rfl,
   C9_rNLP_infeasible_nonfatal cfgOA sd0 0 resInfeasible [] [] (Or.inl rfl)⟩

@[simp] theorem add_oa_cuts_variable_list (pt : List ℚ) (d : Option (List ℚ)) (m : MipModel) :
    (add_oa_cuts pt d m).variable_list = m.variable_list := rfl

@[simp] theorem add_affine_cuts_variable_list (pt : List ℚ) (m : MipModel) :
    (add_affine_cuts pt m).variable_list = m.variable_list := rfl

@[simp] theorem add_oa_cuts_oa_cuts (pt : List ℚ) (d : Option (List ℚ)) (m : MipModel) :
    (add_oa_cuts pt d m).oa_cuts = some (m.oa_cuts.getD [] ++ [Cut.oa pt d]) := rfl

@[simp] theorem add_affine_cuts_aff_cuts (pt : List ℚ) (m : MipModel) :
    (add_affine_cuts pt m).aff_cuts = some (m.aff_cuts.getD [] ++ [Cut.affine pt]) := rfl

theorem update_bounds_set_log (p : ProblemInfo) (s : SolveData) (L : List String) :
    update_bounds p { s with log := L } = { update_bounds p s with log := L } := by
  obtain ⟨wm, mp, sense, lb, ub, lbp, ubp, rt, jc, ms, lg⟩ := s
  unfold update_bounds
  cases sense <;> cases p.lower_bound <;> cases p.upper_bound <;> rfl

theorem update_bounds_logmsg (p : ProblemInfo) (s : SolveData) (m : String) :
    update_bounds p (logmsg s m) = logmsg (update_bounds p s) m := by
  rw [show logmsg s m = { s with log := s.log ++ [m] } from rfl, update_bounds_set_log]
  simp [logmsg]

theorem init_rNLP_accepted_eq (config : Config) (sd : SolveData) (elapsed : ℚ)
    (results : SolveResults) (rv dv : List ℚ)
    (hacc : results.solver.termination_condition = .optimal ∨
            results.solver.termination_condition = .feasible ∨
            results.solver.termination_condition = .locallyOptimal) :
    init_rNLP config sd elapsed results rv dv =
      .ok (handle_accepted config (logmsg sd "Relaxed NLP: Solve relaxed integrality")
        results rv dv) := by
  simp only [init_rNLP]
  rw [if_pos hacc]

theorem handle_accepted_core_bounds (config : Config) (s : SolveData)
    (results : SolveResults) (rv dv : List ℚ) :
    (handle_accepted_core config s results rv dv).LB
      = (update_bounds results.problem s).LB ∧
    (handle_accepted_core config s results rv dv).UB
      = (update_bounds results.problem s).UB ∧
    (handle_accepted_core config s results rv dv).LB_progress
      = (update_bounds results.problem s).LB_progress ∧
    (handle_accepted_core config s results rv dv).UB_progress
      = (update_bounds results.problem s).UB_progress := by
  simp only [handle_accepted_core]
  split_ifs <;> simp [logmsg]

theorem handle_accepted_core_working_model (config : Config) (s : SolveData)
    (results : SolveResults) (rv dv : List ℚ)
    (h : config.init_strategy ≠ some "feas_pump") :
    (handle_accepted_core config s results rv dv).working_model = s.working_model := by
  simp only [handle_accepted_core]
  split_ifs <;> simp_all [logmsg]

theorem handle_accepted_core_set_log (config : Config) (s : SolveData)
    (results : SolveResults) (rv dv : List ℚ) (L : List String) :
    handle_accepted_core config { s with log := L } results rv dv =
      { handle_accepted_core config s results rv dv with
        log := L ++ ["Relaxed NLP: OBJ  LB  UB"] } := by
  simp only [handle_accepted_core, update_bounds_set_log, logmsg]
  split_ifs <;> rfl

/-- C2: for every accepted relaxed-NLP outcome the sense-appropriate bound is
stored and pushed onto its history (when numerically present, i.e. not NaN):
under minimization only the lower bound and its history change and the upper
bound and its history are untouched even when the outcome carries an
upper-bound value, and symmetrically under maximization
(initialization.py:153-159). -/
theorem C2_sense_selective_bound_update (config : Config) (sd : SolveData)
    (elapsed : ℚ) (results : SolveResults) (rv dv : List ℚ) (sd' : SolveData)
    (hacc : results.solver.termination_condition = .optimal ∨
            results.solver.termination_condition = .feasible ∨
            results.solver.termination_condition = .locallyOptimal)
    (hok : init_rNLP config sd elapsed results rv dv = .ok sd') :
    (sd.objective_sense = .minimize →
      sd'.UB = sd.UB ∧ sd'.UB_progress = sd.UB_progress ∧
      (∀ lb, results.problem.lower_bound = some lb →
        sd'.LB = lb ∧ sd'.LB_progress = sd.LB_progress ++ [lb]) ∧
      (results.problem.lower_bound = none →
        sd'.LB = sd.LB ∧ sd'.LB_progress = sd.LB_progress)) ∧
    (sd.objective_sense = .maximize →
      sd'.LB = sd.LB ∧ sd'.LB_progress = sd.LB_progress ∧
      (∀ ub, results.problem.upper_bound = some ub →
        sd'.UB = ub ∧ sd'.UB_progress = sd.UB_progress ++ [ub]) ∧
      (results.problem.upper_bound = none →
        sd'.UB = sd.UB ∧ sd'.UB_progress = sd.UB_progress)) := by
  rw [init_rNLP_accepted_eq config sd elapsed results rv dv hacc] at hok
  injection hok with hok
  subst hok
  have hb := handle_accepted_core_bounds config
    (if results.solver.termination_condition = .feasible ∨
        results.solver.termination_condition = .locallyOptimal then
      logmsg (logmsg sd "Relaxed NLP: Solve relaxed integrality")
        "relaxed NLP is not solved to optimality."
     else logmsg sd "Relaxed NLP: Solve relaxed integrality") results rv dv
  have hsplit :
      handle_accepted config (logmsg sd "Relaxed NLP: Solve relaxed integrality")
        results rv dv =
      handle_accepted_core config
        (if results.solver.termination_condition = .feasible ∨
            results.solver.termination_condition = .locallyOptimal then
          logmsg (logmsg sd "Relaxed NLP: Solve relaxed integrality")
            "relaxed NLP is not solved to optimality."
         else logmsg sd "Relaxed NLP: Solve relaxed integrality") results rv dv := by
    simp only [handle_accepted]
  rw [hsplit]
  constructor
  · intro hmin
    split_ifs at hb ⊢ with hc
    all_goals {
      simp only [update_bounds_logmsg, logmsg_LB, logmsg_UB, logmsg_LB_progress,
        logmsg_UB_progress] at hb
      obtain ⟨h1, h2, h3, h4⟩ := hb
      have hub := update_bounds_minimize results.problem sd hmin
      exact ⟨h2.trans hub.1.1, h4.trans hub.1.2,
        fun lb hlb => ⟨h1.trans (hub.2.1 lb hlb).1, h3.trans (hub.2.1 lb hlb).2⟩,
        fun hlb => ⟨h1.trans (hub.2.2 hlb).1, h3.trans (hub.2.2 hlb).2⟩⟩
    }
  · intro hmax
    split_ifs at hb ⊢ with hc
    all_goals {
      simp only [update_bounds_logmsg, logmsg_LB, logmsg_UB, logmsg_LB_progress,
        logmsg_UB_progress] at hb
      obtain ⟨h1, h2, h3, h4⟩ := hb
      have hub := update_bounds_maximize results.problem sd hmax
      exact ⟨h1.trans hub.1.1, h3.trans hub.1.2,
        fun ub hu => ⟨h2.trans (hub.2.1 ub hu).1, h4.trans (hub.2.1 ub hu).2⟩,
        fun hu => ⟨h2.trans (hub.2.2 hu).1, h4.trans (hub.2.2 hu).2⟩⟩
    }

/-- C2 witness: on the sample minimizing state, an optimal outcome with lower
bound 10 pushes 10 onto the lower-bound history and leaves the upper bound
and its history untouched although the outcome carries upper bound 20. -/
theorem C2_sense_selective_bound_update_witness :
    (resOpt.solver.termination_condition = TermCond.optimal ∨
     resOpt.solver.termination_condition = TermCond.feasible ∨
     resOpt.solver.termination_condition = TermCond.locallyOptimal) ∧
    sd0.objective_sense = Sense.minimize ∧
    resOpt.problem.upper_bound = some 20 ∧
    sdOpt0.UB = sd0.UB ∧ sdOpt0.UB_progress = sd0.UB_progress ∧
    sdOpt0.LB = 10 ∧ sdOpt0.LB_progress = sd0.LB_progress ++ [10] := by
  have h := (C2_sense_selective_bound_update cfgOA sd0 0 resOpt [] [] sdOpt0
    (Or.inl rfl) rfl).1 rfl
  exact ⟨Or.inl rfl, rfl, rfl, h.1, h.2.1, (h.2.2.1 10 rfl).1, (h.2.2.1 10 rfl).2⟩

/-- C10: when the configured initialization strategy is not feas_pump (in
particular when it is rNLP), init_rNLP never modifies the working model: the
relaxed solve happens on a clone, and the copy back into the working model is
guarded by the feas_pump initialization strategy
(initialization.py:129 and 168-171). -/
theorem C10_working_model_frame (config : Config) (sd : SolveData) (elapsed : ℚ)
    (results : SolveResults) (rv dv : List ℚ) (sd' : SolveData)
    (hstrat : config.init_strategy ≠ some "feas_pump")
    (hok : init_rNLP config sd elapsed results rv dv = .ok sd') :
    sd'.working_model = sd.working_model := by
  simp only [init_rNLP] at hok
  split at hok
  · injection hok with h
    subst h
    simp only [handle_accepted]
    rw [handle_accepted_core_working_model _ _ _ _ _ hstrat]
    split_ifs <;> rfl
  · split at hok
    · injection hok with h
      subst h
      rfl
    · split at hok
      · injection hok with h
        subst h
        rfl
      · split at hok
        · injection hok with h
          subst h
          rfl
        · exact Except.noConfusion hok

/-- C10 witness: on the sample state with initialization strategy rNLP, an
optimal relaxed solve leaves the working model exactly as it was. -/
theorem C10_working_model_frame_witness :
    cfgOA.init_strategy ≠ some "feas_pump" ∧
    sdOpt0.working_model = sd0.working_model :=
  ⟨by decide,
   C10_working_model_frame cfgOA sd0 0 resOpt [] [] sdOpt0 (by decide) rfl⟩

/-- C1 counterexample: dual values are requested (`calculate_dual`) and
available and the relaxed solve is optimal, yet with decomposition strategy
ECP the relaxed value 7 is not copied into the master model (its variable
keeps value 0): the copy/cut/round block is gated on the strategy being OA,
GOA or feas_pump (initialization.py:164), not on dual availability. -/
theorem C1_counterexample :
    cfgECPdual.calculate_dual = true ∧
    mip_values (init_rNLP cfgECPdual sd0 0 resOpt [7] [3]) = some [0] ∧
    mip_values (init_rNLP cfgECPdual sd0 0 resOpt [7] [3]) ≠ some [7] :=
  ⟨rfl, rfl, by decide⟩

/-- C1 (amended): for every accepted relaxed-NLP solve, when the decomposition
strategy is OA or GOA (regardless of whether dual values were requested),
every variable's relaxed value is copied into the master model and every
discrete variable's copied value is rounded to the nearest integer; an
outer-approximation cut built from the duals (when requested) and Jacobian is
appended to the OA pool when the strategy is OA, and an affine cut is
appended to the affine pool when it is GOA (initialization.py:144-178). -/
theorem C1_amended_copy_cut_round (config : Config) (sd : SolveData) (elapsed : ℚ)
    (results : SolveResults) (rv dv : List ℚ) (sd' : SolveData)
    (hacc : results.solver.termination_condition = .optimal ∨
            results.solver.termination_condition = .feasible ∨
            results.solver.termination_condition = .locallyOptimal)
    (hok : init_rNLP config sd elapsed results rv dv = .ok sd') :
    (config.strategy = "OA" →
      sd'.mip.variable_list =
        round_discrete_vars (copy_var_list_values rv sd.mip.variable_list) ∧
      sd'.mip.oa_cuts = some (sd.mip.oa_cuts.getD [] ++
        [Cut.oa rv (if config.calculate_dual then some dv else none)])) ∧
    (config.strategy = "GOA" →
      sd'.mip.variable_list =
        round_discrete_vars (copy_var_list_values rv sd.mip.variable_list) ∧
      sd'.mip.aff_cuts = some (sd.mip.aff_cuts.getD [] ++ [Cut.affine rv])) := by
  rw [init_rNLP_accepted_eq config sd elapsed results rv dv hacc] at hok
  injection hok with h
  subst h
  constructor
  · intro hOA
    simp only [handle_accepted, handle_accepted_core, hOA]
    split_ifs <;> simp_all
  · intro hGOA
    simp only [handle_accepted, handle_accepted_core, hGOA]
    split_ifs <;> simp_all

/-- C1 witness: on the sample OA state with duals requested, the optimal
relaxed value 7 is copied (and rounded, trivially for a continuous variable)
into the master model and one OA cut carrying the duals is appended. -/
theorem C1_amended_copy_cut_round_witness :
    (resOpt.solver.termination_condition = TermCond.optimal ∨
     resOpt.solver.termination_condition = TermCond.feasible ∨
     resOpt.solver.termination_condition = TermCond.locallyOptimal) ∧
    cfgOA.strategy = "OA" ∧
    sdOA7.mip.variable_list =
      round_discrete_vars (copy_var_list_values [7] sd0.mip.variable_list) ∧
    sdOA7.mip.oa_cuts = some (sd0.mip.oa_cuts.getD [] ++
      [Cut.oa [7] (if cfgOA.calculate_dual then some [3] else none)]) := by
  have h := (C1_amended_copy_cut_round cfgOA sd0 0 resOpt [7] [3] sdOA7
    (Or.inl rfl) rfl).1 rfl
  exact ⟨Or.inl rfl, rfl, h.1, h.2⟩

theorem handle_accepted_core_logmsg (config : Config) (s : SolveData)
    (results : SolveResults) (rv dv : List ℚ) (m : String) :
    handle_accepted_core config (logmsg s m) results rv dv =
      { handle_accepted_core config s results rv dv with
        log := (s.log ++ [m]) ++ ["Relaxed NLP: OBJ  LB  UB"] } := by
  rw [show logmsg s m = { s with log := s.log ++ [m] } from rfl,
      handle_accepted_core_set_log]

theorem handle_accepted_core_solver_irrelevant (config : Config) (s : SolveData)
    (rv dv : List ℚ) (a b : SolverInfo) (prob : ProblemInfo) :
    handle_accepted_core config s ⟨a, prob⟩ rv dv =
      handle_accepted_core config s ⟨b, prob⟩ rv dv := rfl

/-- C5 counterexample: a feasible (non-optimal) outcome of the
maximize-binaries problem is not accepted; init_max_binaries raises the
unrecognized-status error on it (initialization.py:245 accepts only
`tc.optimal`). -/
theorem C5_counterexample :
    init_max_binaries cfgOA sd0 0 resFeasible [] =
      .error (maxbin_err_msg TermCond.feasible "ok") := rfl

/-- C5 (amended): init_rNLP accepts a feasible (non-optimal) outcome and
updates bounds, cuts and variable values identically to an optimal outcome,
differing only in the logged caveat; init_max_binaries, however, accepts only
an optimal outcome and raises the unrecognized-status error on a feasible
one (initialization.py:144-147 versus 245 and 264-268). -/
theorem C5_feasible_policy (config : Config) (sd : SolveData) (elapsed : ℚ)
    (prob : ProblemInfo) (msg : String) (rv dv : List ℚ) :
    (init_rNLP config sd elapsed
        { solver := { termination_condition := .feasible, message := msg },
          problem := prob } rv dv).map clearLog =
      (init_rNLP config sd elapsed
        { solver := { termination_condition := .optimal, message := msg },
          problem := prob } rv dv).map clearLog ∧
    (∀ sd2 mv, init_max_binaries config sd2 elapsed
        { solver := { termination_condition := .feasible, message := msg },
          problem := prob } mv = .error (maxbin_err_msg .feasible msg)) := by
  constructor
  · rw [init_rNLP_accepted_eq _ _ _ _ _ _ (Or.inr (Or.inl rfl)),
        init_rNLP_accepted_eq _ _ _ _ _ _ (Or.inl rfl)]
    simp only [Except.map]
    congr 1
    simp only [handle_accepted]
    have h2 : ¬(TermCond.optimal = TermCond.feasible ∨
        TermCond.optimal = TermCond.locallyOptimal) := by simp
    simp only [true_or, if_true, if_neg h2]
    rw [handle_accepted_core_solver_irrelevant config _ rv dv
      { termination_condition := .feasible, message := msg }
      { termination_condition := .optimal, message := msg } prob]
    simp only [handle_accepted_core_logmsg, logmsg_log]
    simp [clearLog]
  · intro sd2 mv
    simp [init_max_binaries]

/-- C3 counterexample: during the maximize-binaries initialization the MILP
call receives no time budget at all — the `remaining` value is computed at
initialization.py:238 but never attached to the solver call (the gams branch
appends only the optcr option) — so the budget supplied does not equal
max(globalTimeLimit - elapsedTime, 1): here, with limit 10 and elapsed 2,
nothing (rather than 8) is supplied. -/
theorem C3_counterexample :
    (max_binaries_mip_args cfgGams 2).remaining = 8 ∧
    (max_binaries_mip_args cfgGams 2).reslim = none ∧
    (max_binaries_mip_args cfgGams 2).reslim ≠ some 8 :=
  ⟨by norm_num [max_binaries_mip_args, remaining_time, pyInt, cfgGams], rfl, by decide⟩

/-- C3 (amended): both initialization routines compute the remaining time as
the integer truncation of max(globalTimeLimit - elapsedTime, 1), which is
always at least 1 and equals exactly 1 when elapsed = limit - 0.5; however,
the computed budget is supplied to the solver only in init_rNLP and only when
the NLP solver is gams (as a reslim option); init_max_binaries computes the
value but never supplies it (initialization.py:134-139 and 236-242). -/
theorem C3_amended_time_budget (config : Config) (elapsed : ℚ) :
    1 ≤ remaining_time config elapsed ∧
    (elapsed = config.time_limit - 1/2 → remaining_time config elapsed = 1) ∧
    (config.nlp_solver = "gams" →
      (rNLP_nlp_args config elapsed).reslim = some (remaining_time config elapsed)) ∧
    (config.nlp_solver ≠ "gams" → (rNLP_nlp_args config elapsed).reslim = none) ∧
    (max_binaries_mip_args config elapsed).reslim = none ∧
    (max_binaries_mip_args config elapsed).remaining = remaining_time config elapsed := by
  refine ⟨?_, ?_, ?_, ?_, ?_, ?_⟩
  · have hmax : (1 : ℚ) ≤ max (config.time_limit - elapsed) 1 := le_max_right _ _
    unfold remaining_time pyInt
    rw [if_pos (le_trans zero_le_one hmax)]
    exact Int.le_floor.mpr (by exact_mod_cast hmax)
  · intro he
    subst he
    unfold remaining_time pyInt
    have h1 : config.time_limit - (config.time_limit - 1/2) = (1 : ℚ)/2 := by ring
    rw [h1, max_eq_right (by norm_num : (1:ℚ)/2 ≤ 1)]
    norm_num
  · intro h
    simp [rNLP_nlp_args, h]
  · intro h
    simp [rNLP_nlp_args, h]
  · unfold max_binaries_mip_args
    split_ifs <;> rfl
  · unfold max_binaries_mip_args
    split_ifs <;> rfl

/-- C3 witness: with the gams configuration (limit 10) and elapsed 9.5 the
computed budget is exactly 1; init_rNLP attaches it as the reslim option,
init_max_binaries attaches nothing. -/
theorem C3_amended_time_budget_witness :
    (19 : ℚ)/2 = cfgGams.time_limit - 1/2 ∧
    remaining_time cfgGams ((19 : ℚ)/2) = 1 ∧
    (rNLP_nlp_args cfgGams ((19 : ℚ)/2)).reslim = some 1 ∧
    (max_binaries_mip_args cfgGams ((19 : ℚ)/2)).reslim = none := by
  have h := C3_amended_time_budget cfgGams ((19 : ℚ)/2)
  have he : (19 : ℚ)/2 = cfgGams.time_limit - 1/2 := by norm_num [cfgGams]
  have h1 : remaining_time cfgGams ((19 : ℚ)/2) = 1 := h.2.1 he
  refine ⟨he, h1, ?_, h.2.2.2.2.1⟩
  rw [h.2.2.1 rfl, h1]

end MindtPy
